import Mathlib

/-!
Shallow embedding of the radio-test backend core (app/reports.py, app/crud.py,
app/schemas.py, app/main.py) and proofs of the specification claims.

Conventions of the embedding:
* Python strings are Lean `String`s; character-level work is done on `String.data`
  (`List Char`) with hand-rolled structural recursions mirroring `str.split`,
  `str.strip`, `str.lower` and `in` (substring containment) on ASCII data.
* Python `int(...)` applied to the pieces of a time string is modelled by
  `parseInt`: an optional sign followed by one or more decimal digits.
* `float('inf')` returned by `time_difference` on a parse failure is modelled by
  `Option Nat`: `none` is the infinite sentinel, and the comparison
  `time_diff <= tol` is embedded as `infLE`, which is `false` on the sentinel
  for every finite tolerance (IEEE `inf <= finite` is false).
* Latitude/longitude/accuracy floats are modelled as `ℚ` on the ingest side
  (where only comparisons happen) and are cast to `ℝ` on the report side
  (where `haversine_distance` does real trigonometry).
* Database rows (`models.LocationSample`) are `Row`s; the committed table is a
  `List Row`.  Server-generated fields (`server_id`, `received_at`) play no
  role in any claim and are omitted.  The SQLAlchemy session is opened with
  `autoflush=False` (app/database.py line 18), so queries issued during
  `create_location_samples_bulk` see only the committed rows, never the
  pending `db.add`s; `processSamples` embeds exactly that by querying the
  immutable `committed` list.  `commit` enforces the unique constraint on
  `client_id` (app/models.py line 16): it fails iff a pending row collides
  with a committed row or with another pending row.
-/

namespace RadioTest

/-! ### Character-level string helpers (embedding `str.split`, `str.strip`, `str.lower`, `in`) -/

/-- `split` on a single separator character, mirroring Python `s.split(c)`:
the empty string yields `[[]]`, and separators delimit (possibly empty) pieces. -/
def splitOnChar (c : Char) : List Char → List (List Char)
  | [] => [[]]
  | x :: xs =>
    let r := splitOnChar c xs
    if x == c then [] :: r
    else
      match r with
      | [] => [[x]]
      | h :: t => (x :: h) :: t

/-- Everything before the first `'.'`, i.e. Python `s.split('.')[0]`. -/
def stripFrac (s : String) : List Char :=
  s.data.takeWhile (fun c => c != '.')

/-- Decimal value of a digit list accumulated left to right; fails on a non-digit. -/
def parseDigitsAux : List Char → Nat → Option Nat
  | [], acc => some acc
  | c :: cs, acc =>
    if c.isDigit then parseDigitsAux cs (acc * 10 + (c.toNat - 48)) else none

/-- One or more decimal digits, as in Python `int` on an unsigned digit string. -/
def parseNat : List Char → Option Nat
  | [] => none
  | l => parseDigitsAux l 0

/-- Python `int(...)` on a (trimmed, ASCII) string: optional sign, then digits. -/
def parseInt : List Char → Option Int
  | '-' :: cs => (parseNat cs).map (fun n => -(n : Int))
  | '+' :: cs => (parseNat cs).map (fun n => (n : Int))
  | cs => (parseNat cs).map (fun n => (n : Int))

/-- Python `s.strip()`: drop whitespace at both ends. -/
def stripChars (l : List Char) : List Char :=
  ((l.dropWhile Char.isWhitespace).reverse.dropWhile Char.isWhitespace).reverse

/-- Does `needle` occur at the head of `haystack`? -/
def beginsWith : List Char → List Char → Bool
  | [], _ => true
  | _ :: _, [] => false
  | a :: as, b :: bs => a == b && beginsWith as bs

/-- Python `needle in haystack` substring containment. -/
def containsSub (needle : List Char) : List Char → Bool
  | [] => beginsWith needle []
  | l@(_ :: rest) => beginsWith needle l || containsSub needle rest

/-! ### Geo/Time math (app/reports.py lines 17-61) -/

/-- `h1, m1, s1 = map(int, t.split(':'))`, then seconds since midnight
(app/reports.py lines 40-44).  Fails (`none`) unless the split yields exactly
three integer-parsable pieces. -/
def parseHMS (l : List Char) : Option Int :=
  match splitOnChar ':' l with
  | [a, b, c] =>
    match parseInt a, parseInt b, parseInt c with
    | some h, some m, some s => some (h * 3600 + m * 60 + s)
    | _, _, _ => none
  | _ => none

/-- `time_difference` (app/reports.py lines 33-49): strip a fractional-second
suffix, parse both strings as `HH:MM:SS`, return the absolute difference of the
two seconds-since-midnight values; on any parse failure return the infinite
sentinel (`none`, embedding `float('inf')`). -/
def time_difference (t1 t2 : String) : Option Nat :=
  match parseHMS (stripFrac t1), parseHMS (stripFrac t2) with
  | some v1, some v2 => some (v1 - v2).natAbs
  | _, _ => none

/-- The comparison `time_diff <= tol` of app/reports.py line 144, on the
sentinel-carrying result of `time_difference`: the infinite sentinel compares
`false` against every finite tolerance. -/
def infLE : Option Nat → Nat → Bool
  | some d, tol => decide (d ≤ tol)
  | none, _ => false

/-- `get_comm_state_value`'s input normalisation: `str(x).strip().lower()`
(app/reports.py line 53). -/
def normalizeComm (s : String) : List Char :=
  (stripChars s.data).map Char.toLower

/-- `get_comm_state_value` (app/reports.py lines 51-61): ordered substring
classification of the normalised communication-state text. -/
def get_comm_state_value (s : String) : Nat :=
  let t := normalizeComm s
  if containsSub "loud and clear".data t then 3
  else if containsSub "readable noisy".data t then 2
  else if containsSub "noisy".data t then 1
  else 0

/-! ### Data model (app/models.py `LocationSample`, app/schemas.py `LocationSampleBase`) -/

/-- A committed `location_samples` row (app/models.py lines 8-47).  The
server-generated `server_id` and `received_at` and the unused `processed`
flag are omitted: no claim mentions them. -/
structure Row where
  client_id : String
  lat : ℚ
  lon : ℚ
  acc : ℚ
  sample_date : String
  sample_time : String
  provider : String
  freq : String
  rf_pwr : String
  comm_state : String
  user : String
  station : String
  captured_at_utc : Int
  device_id : String
  sync : Bool
  attempt_count : Int
  last_error : Option String
  synced_at_utc : Option Int
deriving DecidableEq

/-- One item of a bulk-upload body before validation
(app/schemas.py `LocationSampleBase`, lines 6-35). -/
structure RawItem where
  id : String
  lat : ℚ
  lon : ℚ
  acc : ℚ
  sample_date : String
  sample_time : String
  provider : String
  freq : String
  rf_pwr : String
  comm_state : String
  user : String
  station : String
  captured_at_utc : Int
  sync : Bool
  attempt_count : Int
  last_error : Option String
  synced_at_utc : Option Int
deriving DecidableEq

/-! ### Station matcher (app/reports.py lines 129-171) -/

/-- The acceptance test of app/reports.py line 144:
`s1_date == s2_date and time_diff <= 120`. -/
def qualifies (s1 s2 : Row) : Bool :=
  s1.sample_date == s2.sample_date && infLE (time_difference s1.sample_time s2.sample_time) 120

/-- The inner `for s2 in station2_samples: ... break` loop for one station-1
sample (app/reports.py lines 135-169): scan in order, stop at the first
qualifying station-2 sample. -/
def scanMatch (s1 : Row) : List Row → Option Row
  | [] => none
  | s2 :: rest => if qualifies s1 s2 then some s2 else scanMatch s1 rest

/-- The outer `for s1 in station1_samples` loop (app/reports.py lines 134-169):
each station-1 sample contributes the pair with its first qualifying station-2
sample, or nothing. -/
def matchPairs : List Row → List Row → List (Row × Row)
  | [], _ => []
  | s1 :: rest, l2 =>
    match scanMatch s1 l2 with
    | some s2 => (s1, s2) :: matchPairs rest l2
    | none => matchPairs rest l2

/-! ### Haversine distance (app/reports.py lines 17-31), over `ℝ` -/

open Real in
/-- `math.radians` — degrees to radians. -/
noncomputable def radians (x : ℝ) : ℝ := x * π / 180

/-- `math.atan2 y x`, by the standard case split. -/
noncomputable def atan2 (y x : ℝ) : ℝ :=
  if 0 < x then Real.arctan (y / x)
  else if x < 0 ∧ 0 ≤ y then Real.arctan (y / x) + Real.pi
  else if x < 0 ∧ y < 0 then Real.arctan (y / x) - Real.pi
  else if x = 0 ∧ 0 < y then Real.pi / 2
  else if x = 0 ∧ y < 0 then -(Real.pi / 2)
  else 0

/-- `haversine_distance` (app/reports.py lines 17-31): the great-circle
distance with Earth radius 6,371,000 m, floats modelled as reals. -/
noncomputable def haversine_distance (lat1 lon1 lat2 lon2 : ℝ) : ℝ :=
  let R : ℝ := 6371000
  let a := Real.sin (radians (lat2 - lat1) / 2) * Real.sin (radians (lat2 - lat1) / 2) +
      Real.cos (radians lat1) * Real.cos (radians lat2) *
        (Real.sin (radians (lon2 - lon1) / 2) * Real.sin (radians (lon2 - lon1) / 2))
  let c := 2 * atan2 (Real.sqrt a) (Real.sqrt (1 - a))
  R * c

/-! ### Report generation (app/reports.py `generate_station_report`) -/

/-- One row of the report table (the dict built at app/reports.py
lines 152-165). -/
structure MatchedPair where
  serial : Nat
  date : String
  time : String
  frequency : String
  rf_power : String
  lat_station1 : ℝ
  lon_station1 : ℝ
  lat_station2 : ℝ
  lon_station2 : ℝ
  distance : ℝ
  comm_state : String
  comm_state_value : Nat

/-- Assembly of the matched-pair dicts in discovery order; the running
`len(matched_pairs) + 1` serial is the 1-based position. -/
noncomputable def buildPairsFrom : Nat → List (Row × Row) → List MatchedPair
  | _, [] => []
  | n, (s1, s2) :: rest =>
    { serial := n + 1
      date := s1.sample_date
      time := s1.sample_time ++ " (mean)"
      frequency := s1.freq
      rf_power := s1.rf_pwr
      lat_station1 := (s1.lat : ℝ)
      lon_station1 := (s1.lon : ℝ)
      lat_station2 := (s2.lat : ℝ)
      lon_station2 := (s2.lon : ℝ)
      distance := haversine_distance (s1.lat : ℝ) (s1.lon : ℝ) (s2.lat : ℝ) (s2.lon : ℝ)
      comm_state := s1.comm_state
      comm_state_value := get_comm_state_value s1.comm_state } :: buildPairsFrom (n + 1) rest

/-- `pair['comm_state_value'] in [2, 3]` (app/reports.py line 258). -/
def isSuccessfulComm (p : MatchedPair) : Bool :=
  p.comm_state_value == 2 || p.comm_state_value == 3

/-- The distinct outcomes of `generate_station_report` (app/reports.py
lines 116-288): 404 "No data found for the specified criteria" (line 117),
404 "No data found for stations" (line 127), 404 "No matching time pairs found
... Station1 times: ..., Station2 times: ..." (lines 177-180) carrying both
stations' time lists, and the success payload whose summary line divides the
successful-communication count by the pair count (line 264). -/
inductive ReportResult where
  | noData
  | noStationData
  | noMatches (station1_times station2_times : List String)
  | success (pairs : List MatchedPair) (successRate : ℚ)

/-- `generate_station_report` after the database query (app/reports.py
lines 112-288), taking the ordered query result as input: split the samples by
station, run the matcher, and dispatch on the three failure conditions before
assembling the report and its success-rate summary. -/
noncomputable def generate_station_report (samples : List Row) (station1 station2 : String) :
    ReportResult :=
  if samples.isEmpty then .noData
  else
    let station1_samples := samples.filter (fun s => s.station == station1)
    let station2_samples := samples.filter (fun s => s.station == station2)
    if station1_samples.isEmpty || station2_samples.isEmpty then .noStationData
    else
      let matched := matchPairs station1_samples station2_samples
      if matched.isEmpty then
        .noMatches (station1_samples.map (·.sample_time)) (station2_samples.map (·.sample_time))
      else
        let pairs := buildPairsFrom 0 matched
        .success pairs ((pairs.countP (fun p => isSuccessfulComm p) : ℚ) / (pairs.length : ℚ) * 100)

/-! ### Per-item validation (app/schemas.py lines 6-35)

Pydantic validates every `LocationSampleBase` of the request body when FastAPI
parses `BulkUploadRequest`; any field failure rejects the whole request with a
422 before the handler body runs. -/

/-- The regex `^\d{4}-\d{2}-\d{2}$` of the `sample_date` validator
(app/schemas.py lines 25-29). -/
def matchesDateFmt (s : String) : Bool :=
  match s.data with
  | [a, b, c, d, '-', e, f, '-', g, h] => [a, b, c, d, e, f, g, h].all Char.isDigit
  | _ => false

/-- The regex `^\d{2}:\d{2}:\d{2}$` of the `sample_time` validator
(app/schemas.py lines 31-35). -/
def matchesTimeFmt (s : String) : Bool :=
  match s.data with
  | [a, b, ':', c, d, ':', e, f] => [a, b, c, d, e, f].all Char.isDigit
  | _ => false

/-- All pydantic field constraints of `LocationSampleBase`: `lat ∈ [-90,90]`,
`lon ∈ [-180,180]`, `acc ≥ 0`, `captured_at_utc ≥ 0`, and the two format
validators. -/
def validateItem (it : RawItem) : Bool :=
  decide (-90 ≤ it.lat) && decide (it.lat ≤ 90) &&
  decide (-180 ≤ it.lon) && decide (it.lon ≤ 180) &&
  decide (0 ≤ it.acc) && decide (0 ≤ it.captured_at_utc) &&
  matchesDateFmt it.sample_date && matchesTimeFmt it.sample_time

/-! ### Bulk ingest (app/crud.py `create_location_samples_bulk`, app/main.py
`bulk_upload_locations`) -/

/-- The `models.LocationSample(...)` construction of app/crud.py lines 33-53.
`sample_data.sync or False` equals `sync` (both `False or False` and
`True or False` return the left value's truth), and `attempt_count or 0`
equals `attempt_count` (Python `0 or 0 = 0`, `n or 0 = n` for `n ≠ 0`). -/
def mkRow (s : RawItem) (dev : String) : Row :=
  { client_id := s.id
    lat := s.lat
    lon := s.lon
    acc := s.acc
    sample_date := s.sample_date
    sample_time := s.sample_time
    provider := s.provider
    freq := s.freq
    rf_pwr := s.rf_pwr
    comm_state := s.comm_state
    user := s.user
    station := s.station
    captured_at_utc := s.captured_at_utc
    device_id := dev
    sync := s.sync
    attempt_count := s.attempt_count
    last_error := s.last_error
    synced_at_utc := s.synced_at_utc }

/-- The per-sample loop of app/crud.py lines 20-56: query the store for the
`client_id` (the session has `autoflush=False`, so the query sees only the
`committed` rows, never the pending `db.add`s of earlier iterations); an
existing id is appended to `successful_ids` without a new row, a fresh id is
appended together with a pending row.  With well-typed inputs no per-item
exception can occur, so `failed_samples` stays empty.  Returns
`(successful_ids, pending rows)`, both in processing order. -/
def processSamples (committed : List Row) (dev : String) : List RawItem → List String × List Row
  | [] => ([], [])
  | s :: rest =>
    let r := processSamples committed dev rest
    if committed.any (fun row => row.client_id == s.id)
    then (s.id :: r.1, r.2)
    else (s.id :: r.1, mkRow s dev :: r.2)

/-- Is there a string that occurs twice in the list? -/
def hasDup : List String → Bool
  | [] => false
  | x :: xs => xs.contains x || hasDup xs

/-- The unique constraint on `client_id` (app/models.py line 16), checked by
the database at `db.commit()`: the flush of the pending rows fails iff a
pending `client_id` collides with a committed row or with another pending
row. -/
def commitFails (committed pending : List Row) : Bool :=
  pending.any (fun r => committed.any (fun c => c.client_id == r.client_id)) ||
  hasDup (pending.map (·.client_id))

/-- `create_location_samples_bulk` (app/crud.py lines 14-72): process the
batch against the committed store, then `db.commit()`; an `IntegrityError` at
commit is caught by the outer `except`, rolled back, and re-raised as
`Exception("Transaction failed: ...")` — no row of the batch is persisted. -/
def create_location_samples_bulk (committed : List Row) (samples : List RawItem) (dev : String) :
    Except String (List String × List Row) :=
  let r := processSamples committed dev samples
  if commitFails committed r.2 then .error "Transaction failed"
  else .ok (r.1, committed ++ r.2)

/-- The externally visible outcomes of a `POST /locations/bulk` call. -/
inductive BulkOutcome where
  /-- 422 from the schema's `max_items=1000` on `samples`
  (app/schemas.py line 62), raised before any per-item validation. -/
  | tooMany
  /-- 422 from a per-item pydantic field validation failure: the whole
  request is rejected before the handler body runs. -/
  | invalid
  /-- 201 with the accepted `synced_ids`. -/
  | committed (ids : List String)
  /-- 500 "Internal server error occurred": any exception inside the handler
  body — a commit-phase failure, or the handler's own size check (its
  `HTTPException` is swallowed by the blanket `except Exception`). -/
  | serverError
deriving DecidableEq

/-- `POST /locations/bulk` end to end (app/main.py lines 139-183 behind the
pydantic parse of `BulkUploadRequest`): FastAPI first enforces
`max_items=1000`, then per-item field validation — each rejecting the whole
request — and only then runs the handler, whose own `> 1000` re-check is
unreachable dead code.  Returns the outcome and the resulting store. -/
def bulk_upload_locations (store : List Row) (items : List RawItem) (dev : String) :
    BulkOutcome × List Row :=
  if 1000 < items.length then (.tooMany, store)
  else if !(items.all validateItem) then (.invalid, store)
  else if 1000 < items.length then (.serverError, store)
  else
    match create_location_samples_bulk store items dev with
    | .ok (ids, store') => (.committed ids, store')
    | .error _ => (.serverError, store)

/-! ### Concrete fixtures used by the witnesses and examples -/

/-- A concrete stored row with a given station and sample time. -/
def testRow (st tm : String) : Row :=
  { client_id := st ++ tm, lat := 0, lon := 0, acc := 0, sample_date := "2024-01-01",
    sample_time := tm, provider := "FUSED", freq := "100", rf_pwr := "5",
    comm_state := "loud and clear", user := "u", station := st, captured_at_utc := 0,
    device_id := "d", sync := false, attempt_count := 0, last_error := none,
    synced_at_utc := none }

/-- Station-1 sample `A@10:00:00` of the determinism example. -/
def sampleA : Row := testRow "S1" "10:00:00"

/-- Station-2 sample `B@10:01:00` (60 s from `A`, within tolerance). -/
def sampleB : Row := testRow "S2" "10:01:00"

/-- Station-2 sample `C@10:01:30` (90 s from `A`, also within tolerance). -/
def sampleC : Row := testRow "S2" "10:01:30"

/-- A concrete valid bulk-upload item. -/
def itemGood : RawItem :=
  { id := "good-1", lat := 10, lon := 20, acc := 5, sample_date := "2024-01-01",
    sample_time := "10:00:00", provider := "FUSED", freq := "100", rf_pwr := "5",
    comm_state := "loud and clear", user := "u", station := "S1", captured_at_utc := 0,
    sync := false, attempt_count := 0, last_error := none, synced_at_utc := none }

/-- A bulk-upload item with an out-of-range latitude (95 > 90). -/
def itemBadLat : RawItem := { itemGood with id := "bad-1", lat := 95 }

/-! ### Helper lemmas about the matcher -/

theorem scanMatch_eq_some_qualifies {s1 s2 : Row} {l2 : List Row}
    (h : scanMatch s1 l2 = some s2) : qualifies s1 s2 = true := by
  induction l2 with
  | nil => simp [scanMatch] at h
  | cons x xs ih =>
    by_cases hq : qualifies s1 x
    · simp only [scanMatch, hq, if_pos, Option.some.injEq] at h
      subst h; exact hq
    · simp only [scanMatch, hq, if_neg, Bool.false_eq_true, not_false_iff] at h
      exact ih h

theorem matchPairs_mem_qualifies {l1 l2 : List Row} {p : Row × Row}
    (h : p ∈ matchPairs l1 l2) : qualifies p.1 p.2 = true := by
  induction l1 with
  | nil => simp [matchPairs] at h
  | cons s1 rest ih =>
    rw [matchPairs] at h
    cases hs : scanMatch s1 l2 with
    | some s2 =>
      rw [hs] at h
      rcases List.mem_cons.mp h with h1 | h2
      · subst h1; exact scanMatch_eq_some_qualifies hs
      · exact ih h2
    | none =>
      rw [hs] at h
      exact ih h

/-! ### Claims about the matcher and the time/comm functions -/

/-- C1: the matcher scans station-2 samples in order and takes the first one
with equal `sample_date` and `time_difference ≤ 120`, stopping immediately
(first-match-wins): the inner scan is exactly `List.find?` over the
qualification test, and on `[A@10:00:00]` vs `[B@10:01:00, C@10:01:30]`
(same date) the match for `A` is `B`, not `C`. -/
theorem claim1_first_match_wins :
    (∀ (s1 : Row) (l2 : List Row), scanMatch s1 l2 = l2.find? (fun s2 => qualifies s1 s2)) ∧
    matchPairs [sampleA] [sampleB, sampleC] = [(sampleA, sampleB)] := by
  constructor
  · intro s1 l2
    induction l2 with
    | nil => rfl
    | cons x xs ih =>
      by_cases hq : qualifies s1 x <;>
        simp [scanMatch, List.find?_cons, hq, ih]
  · decide

/-- C3: `time_difference` on an unparsable input returns the infinite
sentinel rather than raising; the sentinel fails the `≤ tol` comparison for
every finite tolerance; and every pair emitted by the matcher has a finite
time difference of at most 120 s, so a pair with a malformed time string is
never added. -/
theorem claim3_malformed_never_matches :
    time_difference "bad" "00:00:00" = none ∧
    (∀ (t1 t2 : String) (tol : Nat),
      time_difference t1 t2 = none → infLE (time_difference t1 t2) tol = false) ∧
    (∀ (l1 l2 : List Row) (p : Row × Row), p ∈ matchPairs l1 l2 →
      ∃ d, time_difference p.1.sample_time p.2.sample_time = some d ∧ d ≤ 120) := by
  refine ⟨by decide, ?_, ?_⟩
  · intro t1 t2 tol h
    rw [h]
    rfl
  · intro l1 l2 p hp
    have hq := matchPairs_mem_qualifies hp
    rw [qualifies, Bool.and_eq_true] at hq
    cases hd : time_difference p.1.sample_time p.2.sample_time with
    | none => rw [hd] at hq; exact absurd hq.2 (by simp [infLE])
    | some d =>
      rw [hd] at hq
      exact ⟨d, rfl, of_decide_eq_true hq.2⟩

/-- C3 witness: the matched pair `(A, B)` of the concrete fixture has a
finite time difference within tolerance. -/
theorem claim3_witness :
    ∃ d, time_difference sampleA.sample_time sampleB.sample_time = some d ∧ d ≤ 120 :=
  claim3_malformed_never_matches.2.2 [sampleA] [sampleB, sampleC] (sampleA, sampleB) (by decide)

/-- C6: `get_comm_state_value` lower-cases its input and classifies by
substring containment in priority order, so a text containing
"readable noisy" is never scored 1 via the "noisy" substring; concrete
checks exercise all four tiers and case-insensitivity. -/
theorem claim6_comm_state_priority :
    (∀ s : String, containsSub "readable noisy".data (normalizeComm s) = true →
      get_comm_state_value s = 2 ∨ get_comm_state_value s = 3) ∧
    get_comm_state_value "readable noisy signal" = 2 ∧
    get_comm_state_value "Loud and Clear" = 3 ∧
    get_comm_state_value "very noisy" = 1 ∧
    get_comm_state_value "clear" = 0 := by
  refine ⟨?_, by decide, by decide, by decide, by decide⟩
  intro s h
  by_cases hl : containsSub "loud and clear".data (normalizeComm s) = true
  · right; simp [get_comm_state_value, hl]
  · left; simp [get_comm_state_value, hl, h]

/-- C6 witness: the priority statement applied at "readable noisy signal". -/
theorem claim6_witness :
    get_comm_state_value "readable noisy signal" = 2 ∨
    get_comm_state_value "readable noisy signal" = 3 :=
  claim6_comm_state_priority.1 "readable noisy signal" (by decide)

/-! ### Helper lemmas about fractional-suffix stripping -/

theorem takeWhile_ne_dot_of_not_mem {l : List Char} (h : '.' ∉ l) :
    l.takeWhile (fun c => c != '.') = l := by
  induction l with
  | nil => rfl
  | cons c cs ih =>
    have hc : c ≠ '.' := fun hc => h (hc ▸ List.mem_cons_self c cs)
    have hcs : '.' ∉ cs := fun hm => h (List.mem_cons_of_mem c hm)
    simp [List.takeWhile_cons, hc, ih hcs]

theorem takeWhile_ne_dot_append {l rest : List Char} (h : '.' ∉ l) :
    (l ++ '.' :: rest).takeWhile (fun c => c != '.') = l := by
  induction l with
  | nil => simp [List.takeWhile_cons]
  | cons c cs ih =>
    have hc : c ≠ '.' := fun hc => h (hc ▸ List.mem_cons_self c cs)
    have hcs : '.' ∉ cs := fun hm => h (List.mem_cons_of_mem c hm)
    simp [List.takeWhile_cons, hc, ih hcs]

theorem stripFrac_append_frac (t1 frac : String) (h : '.' ∉ t1.data) :
    stripFrac (t1 ++ "." ++ frac) = stripFrac t1 := by
  rw [stripFrac, stripFrac, String.data_append, String.data_append]
  have hdot : ("." : String).data = ['.'] := rfl
  rw [hdot, List.append_assoc, List.singleton_append,
    takeWhile_ne_dot_append h, takeWhile_ne_dot_of_not_mem h]

/-- C7: `time_difference` discards a fractional-second suffix, parses both
arguments into seconds-since-midnight, and returns the absolute difference of
the two values with no day-wrap correction; in particular
`time_difference "23:59:59" "00:00:01" = 86398`. -/
theorem claim7_time_difference_abs_no_wrap :
    (∀ (t1 t2 : String) (v1 v2 : Int),
      parseHMS (stripFrac t1) = some v1 → parseHMS (stripFrac t2) = some v2 →
      time_difference t1 t2 = some (v1 - v2).natAbs) ∧
    (∀ (t1 frac t2 : String), '.' ∉ t1.data →
      time_difference (t1 ++ "." ++ frac) t2 = time_difference t1 t2) ∧
    time_difference "23:59:59" "00:00:01" = some 86398 ∧
    time_difference "23:59:59.999" "00:00:01" = some 86398 := by
  refine ⟨?_, ?_, by decide, by decide⟩
  · intro t1 t2 v1 v2 h1 h2
    rw [time_difference, h1, h2]
  · intro t1 frac t2 h
    rw [time_difference, time_difference, stripFrac_append_frac t1 frac h]

/-- C7 witness: a fractional suffix appended to an ordinary time string does
not change the result. -/
theorem claim7_witness :
    time_difference ("23:59:59" ++ "." ++ "999") "00:00:01" =
      time_difference "23:59:59" "00:00:01" :=
  claim7_time_difference_abs_no_wrap.2.1 "23:59:59" "999" "00:00:01" (by decide)

/-- C9: `haversine_distance` is symmetric in its two point arguments and is
zero on a pair of identical points, with Earth radius 6,371,000 m; as a Lean
function it is pure by construction. -/
theorem claim9_haversine_symm_self_zero :
    (∀ lat1 lon1 lat2 lon2 : ℝ,
      haversine_distance lat1 lon1 lat2 lon2 = haversine_distance lat2 lon2 lat1 lon1) ∧
    (∀ lat lon : ℝ, haversine_distance lat lon lat lon = 0) := by
  constructor
  · intro lat1 lon1 lat2 lon2
    simp only [haversine_distance]
    have h1 : radians (lat1 - lat2) = -radians (lat2 - lat1) := by unfold radians; ring
    have h2 : radians (lon1 - lon2) = -radians (lon2 - lon1) := by unfold radians; ring
    simp only [h1, h2, neg_div, Real.sin_neg]
    ring_nf
  · intro lat lon
    simp only [haversine_distance, sub_self]
    have h0 : radians 0 = 0 := by unfold radians; ring
    rw [h0]
    norm_num [Real.sin_zero, Real.sqrt_zero, Real.sqrt_one, atan2, Real.arctan_zero]

/-! ### Claims about the ingest engine -/

/-- C2: a sample whose `client_id` is already stored is appended to the
accepted ids without inserting or overwriting a row and without an error; in
any batch, every processed id is accepted in order and pending rows are
created only for ids absent from the store; and submitting the same fresh
sample in two successive calls accepts the same id both times and leaves
exactly one stored row for that `client_id`. -/
theorem claim2_idempotent_ingest :
    (∀ (store : List Row) (s : RawItem) (dev : String),
      store.any (fun r => r.client_id == s.id) = true →
      create_location_samples_bulk store [s] dev = .ok ([s.id], store)) ∧
    (∀ (store : List Row) (dev : String) (samples : List RawItem),
      (processSamples store dev samples).1 = samples.map (·.id) ∧
      ∀ r ∈ (processSamples store dev samples).2,
        store.any (fun c => c.client_id == r.client_id) = false) ∧
    (∀ (store : List Row) (s : RawItem) (dev : String),
      store.any (fun r => r.client_id == s.id) = false →
      create_location_samples_bulk store [s] dev = .ok ([s.id], store ++ [mkRow s dev]) ∧
      create_location_samples_bulk (store ++ [mkRow s dev]) [s] dev =
        .ok ([s.id], store ++ [mkRow s dev]) ∧
      (store ++ [mkRow s dev]).countP (fun r => r.client_id == s.id) = 1) := by
  refine ⟨?_, ?_, ?_⟩
  · intro store s dev h
    simp [create_location_samples_bulk, processSamples, h, commitFails, hasDup]
  · intro store dev samples
    induction samples with
    | nil => simp [processSamples]
    | cons s rest ih =>
      by_cases h : store.any (fun row => row.client_id == s.id) = true
      · refine ⟨by simp [processSamples, h, ih.1], ?_⟩
        intro r hr
        simp only [processSamples, h, if_pos] at hr
        exact ih.2 r hr
      · have h' : store.any (fun row => row.client_id == s.id) = false :=
          Bool.eq_false_iff.mpr h
        refine ⟨by simp [processSamples, h', ih.1], ?_⟩
        intro r hr
        simp only [processSamples, h', Bool.false_eq_true, if_neg, not_false_iff] at hr
        rcases List.mem_cons.mp hr with h1 | h2
        · subst h1; simpa [mkRow] using h'
        · exact ih.2 r h2
  · intro store s dev h
    refine ⟨?_, ?_, ?_⟩
    · simp [create_location_samples_bulk, processSamples, h, commitFails, hasDup, mkRow]
    · simp [create_location_samples_bulk, processSamples, commitFails, hasDup, mkRow,
        List.any_append, h]
    · rw [List.countP_append]
      have h0 : store.countP (fun r => r.client_id == s.id) = 0 :=
        List.countP_eq_zero.mpr (by
          intro a ha
          have := List.any_eq_false.mp h a ha
          simpa using this)
      simp [h0, mkRow, List.countP_cons]

/-- C2 witness: the two-call idempotence at a concrete fresh sample on an
empty store. -/
theorem claim2_witness :
    create_location_samples_bulk [] [itemGood] "dev" =
        .ok ([itemGood.id], ([] : List Row) ++ [mkRow itemGood "dev"]) ∧
      create_location_samples_bulk (([] : List Row) ++ [mkRow itemGood "dev"]) [itemGood] "dev" =
        .ok ([itemGood.id], ([] : List Row) ++ [mkRow itemGood "dev"]) ∧
      (([] : List Row) ++ [mkRow itemGood "dev"]).countP
        (fun r => r.client_id == itemGood.id) = 1 :=
  claim2_idempotent_ingest.2.2 [] itemGood "dev" (by decide)

/-- C10: two occurrences of the same fresh `client_id` in one batch both pass
the per-item duplicate check (which queries only committed rows, the session
having `autoflush=False`), so both rows are pending; the commit then violates
the uniqueness constraint, the whole call fails with a transaction error, and
the endpoint returns a 500 with the store unchanged. -/
theorem claim10_intra_batch_duplicate :
    ∀ (store : List Row) (s : RawItem) (dev : String),
      store.any (fun r => r.client_id == s.id) = false →
      processSamples store dev [s, s] = ([s.id, s.id], [mkRow s dev, mkRow s dev]) ∧
      create_location_samples_bulk store [s, s] dev = .error "Transaction failed" ∧
      (validateItem s = true → bulk_upload_locations store [s, s] dev = (.serverError, store)) := by
  intro store s dev h
  have hproc : processSamples store dev [s, s] = ([s.id, s.id], [mkRow s dev, mkRow s dev]) := by
    simp [processSamples, h]
  have hfail : create_location_samples_bulk store [s, s] dev = .error "Transaction failed" := by
    simp [create_location_samples_bulk, hproc, commitFails, hasDup, mkRow]
  refine ⟨hproc, hfail, ?_⟩
  intro hv
  simp [bulk_upload_locations, hv, hfail]

/-- C10 witness: a concrete duplicated fresh sample on an empty store. -/
theorem claim10_witness :
    create_location_samples_bulk [] [itemGood, itemGood] "dev" = .error "Transaction failed" ∧
    bulk_upload_locations [] [itemGood, itemGood] "dev" = (.serverError, []) :=
  ⟨(claim10_intra_batch_duplicate [] itemGood "dev" (by decide)).2.1,
   (claim10_intra_batch_duplicate [] itemGood "dev" (by decide)).2.2 (by decide)⟩

/-- C4 counterexample: a batch containing one valid item and one item with
latitude 95 is rejected as a whole at the request-validation boundary — the
outcome is the 422 `invalid` and the store stays empty, so the valid item of
the batch is NOT accepted or persisted, contrary to the claim. -/
theorem claim4_counterexample :
    bulk_upload_locations [] [itemGood, itemBadLat] "dev" = (.invalid, []) := by decide

/-- C4 (amended): an item that fails per-item validation (out-of-range
latitude, longitude or accuracy, or a malformed date/time string) causes the
entire request to be rejected with a validation error before the handler
runs: no item of the batch — valid or not — is processed or persisted, and
the store is unchanged. -/
theorem claim4_validation_rejects_whole_batch :
    ∀ (store : List Row) (items : List RawItem) (dev : String),
      items.length ≤ 1000 → items.all validateItem = false →
      bulk_upload_locations store items dev = (.invalid, store) := by
  intro store items dev hlen hv
  simp [bulk_upload_locations, Nat.not_lt.mpr hlen, hv]

/-- C4 witness: the amended statement at the concrete two-item batch of the
counterexample. -/
theorem claim4_witness :
    bulk_upload_locations [] [itemGood, itemBadLat] "dev" = (.invalid, []) ∧ True :=
  ⟨claim4_validation_rejects_whole_batch [] [itemGood, itemBadLat] "dev"
    (by decide) (by decide), trivial⟩

/-- C5: a batch of 1001 samples is rejected wholesale with the size-limit
error, for every batch content (so no item is examined) and with the store
unchanged; a batch of exactly 1000 passes the size limit, and if its items
are valid it reaches per-item processing (commit or transaction failure). -/
theorem claim5_batch_size_boundary :
    (∀ (store : List Row) (items : List RawItem) (dev : String),
      items.length = 1001 → bulk_upload_locations store items dev = (.tooMany, store)) ∧
    (∀ (store : List Row) (items : List RawItem) (dev : String),
      items.length = 1000 →
      (bulk_upload_locations store items dev).1 ≠ .tooMany ∧
      (items.all validateItem = true →
        (∃ ids store', bulk_upload_locations store items dev = (.committed ids, store')) ∨
        bulk_upload_locations store items dev = (.serverError, store))) := by
  constructor
  · intro store items dev hlen
    simp [bulk_upload_locations, hlen]
  · intro store items dev hlen
    have hle : ¬(1000 < items.length) := by omega
    constructor
    · by_cases hv : items.all validateItem = true
      · simp only [bulk_upload_locations, hle, if_neg, hv, Bool.not_true, Bool.false_eq_true,
          not_false_iff]
        cases hc : create_location_samples_bulk store items dev with
        | ok r => cases r with | mk ids st => simp
        | error e => simp
      · have hv' : items.all validateItem = false := Bool.eq_false_iff.mpr hv
        simp [bulk_upload_locations, hle, hv']
    · intro hv
      simp only [bulk_upload_locations, hle, if_neg, hv, Bool.not_true, Bool.false_eq_true,
        not_false_iff]
      cases hc : create_location_samples_bulk store items dev with
      | ok r => cases r with | mk ids st => left; exact ⟨ids, st, by simp⟩
      | error e => right; simp

/-- C5 witness: a concrete 1001-item batch is rejected wholesale. -/
theorem claim5_witness :
    bulk_upload_locations [] (List.replicate 1001 itemGood) "dev" = (.tooMany, []) :=
  claim5_batch_size_boundary.1 [] (List.replicate 1001 itemGood) "dev"
    (List.length_replicate 1001 itemGood)

/-! ### Claim about the report outcomes -/

theorem buildPairsFrom_ne_nil {n : Nat} {a : Row × Row} {t : List (Row × Row)} :
    buildPairsFrom n (a :: t) ≠ [] := by
  cases a; simp [buildPairsFrom]

/-- C8: report generation distinguishes its empty outcomes — zero samples
give `noData`, a station with no samples gives the other "no data found"
outcome, and nonempty stations with zero pairs within tolerance give the
distinct `noMatches` outcome carrying both stations' time lists — and the
success payload (where the success-rate division happens) is only produced
with at least one matched pair. -/
theorem claim8_empty_vs_no_match :
    ∀ (samples : List Row) (station1 station2 : String),
      (samples = [] → generate_station_report samples station1 station2 = .noData) ∧
      (samples ≠ [] →
        (samples.filter (fun s => s.station == station1) = [] ∨
         samples.filter (fun s => s.station == station2) = []) →
        generate_station_report samples station1 station2 = .noStationData) ∧
      (samples.filter (fun s => s.station == station1) ≠ [] →
        samples.filter (fun s => s.station == station2) ≠ [] →
        matchPairs (samples.filter (fun s => s.station == station1))
          (samples.filter (fun s => s.station == station2)) = [] →
        generate_station_report samples station1 station2 =
          .noMatches ((samples.filter (fun s => s.station == station1)).map (·.sample_time))
            ((samples.filter (fun s => s.station == station2)).map (·.sample_time))) ∧
      (∀ pairs rate, generate_station_report samples station1 station2 = .success pairs rate →
        pairs ≠ []) := by
  intro samples st1 st2
  refine ⟨?_, ?_, ?_, ?_⟩
  · intro h; subst h; rfl
  · intro hne hor
    have hN : samples.isEmpty = false := by
      cases samples with
      | nil => exact absurd rfl hne
      | cons a t => rfl
    have hOr : ((samples.filter (fun s => s.station == st1)).isEmpty ||
        (samples.filter (fun s => s.station == st2)).isEmpty) = true := by
      rcases hor with h | h <;> simp [h]
    simp [generate_station_report, hN, hOr]
  · intro h1 h2 hm
    have hN : samples.isEmpty = false := by
      cases hs : samples with
      | nil => rw [hs] at h1; simp at h1
      | cons a t => rfl
    have hOr : ((samples.filter (fun s => s.station == st1)).isEmpty ||
        (samples.filter (fun s => s.station == st2)).isEmpty) = false := by
      simp [List.isEmpty_iff, h1, h2]
    have hM : (matchPairs (samples.filter (fun s => s.station == st1))
        (samples.filter (fun s => s.station == st2))).isEmpty = true := by
      simp [List.isEmpty_iff, hm]
    simp [generate_station_report, hN, hOr, hM]
  · intro pairs rate heq
    by_cases hN : samples.isEmpty = true
    · rw [generate_station_report, if_pos hN] at heq
      cases heq
    · rw [generate_station_report, if_neg hN] at heq
      by_cases hOr : ((samples.filter (fun s => s.station == st1)).isEmpty ||
          (samples.filter (fun s => s.station == st2)).isEmpty) = true
      · rw [if_pos hOr] at heq; cases heq
      · rw [if_neg hOr] at heq
        by_cases hM : (matchPairs (samples.filter (fun s => s.station == st1))
            (samples.filter (fun s => s.station == st2))).isEmpty = true
        · rw [if_pos hM] at heq; cases heq
        · rw [if_neg hM] at heq
          cases hmp : matchPairs (samples.filter (fun s => s.station == st1))
              (samples.filter (fun s => s.station == st2)) with
          | nil => rw [hmp] at hM; exact absurd rfl hM
          | cons a t =>
            rw [hmp] at heq
            have hp : pairs = buildPairsFrom 0 (a :: t) := by
              cases heq; rfl
            rw [hp]
            exact buildPairsFrom_ne_nil

/-- C8 witness: two stations, one sample each on the same date but 2 hours
apart, yield the `noMatches` outcome carrying both time lists. -/
theorem claim8_witness :
    generate_station_report [testRow "S1" "10:00:00", testRow "S2" "12:00:00"] "S1" "S2" =
      .noMatches ["10:00:00"] ["12:00:00"] := by
  have h := (claim8_empty_vs_no_match [testRow "S1" "10:00:00", testRow "S2" "12:00:00"]
    "S1" "S2").2.2.1 (by decide) (by decide) (by decide)
  exact h

end RadioTest
